import Mathlib

/-!
Verification of the prompt-to-element generation engine of the design-canvas
backend (`src/server/src/handlers/ai_generate_elements.ts`), embedded shallowly:

* strings are modelled as Lean `String`s, with JavaScript's `toLowerCase` and
  `includes` reimplemented over the underlying character lists (the prompts in
  scope are ASCII);
* real-valued canvas coordinates are modelled as rationals (`ℚ`) — the source
  stores decimals as strings precisely to keep them exact, so `ℚ` is faithful;
* the surrounding request handler's database is modelled as explicit state
  (lists of canvas rows and element rows), its fresh-UUID source as an injected
  `Nat → String`, and its failure as `Except String`.
-/

/-- `charsPrefixOf pat l` decides whether `pat` is a prefix of `l`. -/
def charsPrefixOf : List Char → List Char → Bool
  | [], _ => true
  | _ :: _, [] => false
  | a :: as, b :: bs => a == b && charsPrefixOf as bs

/-- `charsInfixOf pat l` decides whether `pat` occurs contiguously inside `l`. -/
def charsInfixOf (pat : List Char) : List Char → Bool
  | [] => pat.isEmpty
  | b :: bs => charsPrefixOf pat (b :: bs) || charsInfixOf pat bs

/-- JavaScript's `String.prototype.includes`: substring containment. -/
def includes (s pat : String) : Bool :=
  charsInfixOf pat.data s.data

/-- ASCII lowercasing of one character; models `toLowerCase` on the ASCII
prompts in scope. -/
def lowerChar (c : Char) : Char :=
  if 65 ≤ c.toNat ∧ c.toNat ≤ 90 then Char.ofNat (c.toNat + 32) else c

/-- JavaScript's `String.prototype.toLowerCase` (ASCII fragment). -/
def toLowerStr (s : String) : String :=
  String.mk (s.data.map lowerChar)

/-- The double-quote character. -/
def dquoteChar : Char := Char.ofNat 34

/-- The single-quote character. -/
def squoteChar : Char := Char.ofNat 39

def isQuoteChar (c : Char) : Bool :=
  c == dquoteChar || c == squoteChar

/-- First match of the regex `/["']([^"']+)["']/`: starting at each position in
turn, a quote, then a maximal nonempty run of non-quote characters, then a
closing quote; the captured group is the run. -/
def extractGo : List Char → Option String
  | [] => none
  | c :: rest =>
    if isQuoteChar c then
      let content := rest.takeWhile (fun d => !isQuoteChar d)
      let rest2 := rest.dropWhile (fun d => !isQuoteChar d)
      if 0 < content.length ∧ rest2 ≠ [] then
        some (String.mk content)
      else
        extractGo rest
    else
      extractGo rest

/-- `extractTextContent` from the source: the first quoted substring of the
prompt, if any. -/
def extractTextContent (prompt : String) : Option String :=
  extractGo prompt.data

/-! ## Data model (from `src/server/src/schema.ts`) -/

inductive ElementType
  | rectangle
  | circle
  | line
  | text
deriving DecidableEq

inductive StrokeCap
  | butt
  | round
  | square
deriving DecidableEq

inductive StrokeJoin
  | miter
  | round
  | bevel
deriving DecidableEq

inductive TextAlign
  | left
  | center
  | right
deriving DecidableEq

structure Pos where
  x : ℚ
  y : ℚ
deriving DecidableEq

structure Dimensions where
  width : ℚ
  height : ℚ
deriving DecidableEq

structure FillStyle where
  color : String
  opacity : ℚ
deriving DecidableEq

structure StrokeStyle where
  color : String
  width : ℚ
  opacity : ℚ
  cap : StrokeCap
  join : StrokeJoin
deriving DecidableEq

structure TextStyle where
  fontFamily : String
  fontSize : ℚ
  fontWeight : ℤ
  textAlign : TextAlign
  lineHeight : ℚ
deriving DecidableEq

structure RectangleProps where
  borderRadius : ℚ
deriving DecidableEq

structure LineProps where
  x1 : ℚ
  y1 : ℚ
  x2 : ℚ
  y2 : ℚ
deriving DecidableEq

structure TextProps where
  content : String
  maxWidth : Option ℚ := none
deriving DecidableEq

/-- `CreateElementInput` from the schema: the interpreter's draft unit.
Optional schema fields are `Option`s; the interpreter leaves the ones it does
not set at `none`. -/
structure CreateElementInput where
  type : ElementType
  canvasId : String
  position : Pos
  dimensions : Option Dimensions := none
  zIndex : Option ℤ := none
  visible : Option Bool := none
  locked : Option Bool := none
  fill : Option FillStyle := none
  stroke : Option StrokeStyle := none
  textStyle : Option TextStyle := none
  rectangleProps : Option RectangleProps := none
  lineProps : Option LineProps := none
  textProps : Option TextProps := none
deriving DecidableEq

/-- A persisted `CanvasElement` (timestamps abstracted to integers). -/
structure CanvasElement where
  id : String
  type : ElementType
  canvasId : String
  position : Pos
  dimensions : Option Dimensions
  zIndex : ℤ
  visible : Bool
  locked : Bool
  fill : Option FillStyle
  stroke : Option StrokeStyle
  textStyle : Option TextStyle
  rectangleProps : Option RectangleProps
  lineProps : Option LineProps
  textProps : Option TextProps
  createdAt : ℤ
  updatedAt : ℤ
deriving DecidableEq

/-! ## The prompt interpreter (from `ai_generate_elements.ts`) -/

/-- The keyword-to-hex palette of `getColorFromPrompt`, in source entry order
(JavaScript `Object.entries` iterates string keys in insertion order). -/
def colorMap : List (String × String) :=
  [("red", "#EF4444"),
   ("blue", "#3B82F6"),
   ("green", "#10B981"),
   ("yellow", "#F59E0B"),
   ("purple", "#8B5CF6"),
   ("pink", "#EC4899"),
   ("orange", "#F97316"),
   ("gray", "#6B7280"),
   ("black", "#000000"),
   ("white", "#FFFFFF")]

/-- The source's `for (const [colorName, hex] of Object.entries(colorMap))`
loop with early return. -/
def lookupColor (prompt : String) : List (String × String) → Option String
  | [] => none
  | entry :: rest =>
    if includes prompt entry.1 then some entry.2 else lookupColor prompt rest

/-- `getColorFromPrompt` from the source: first palette name contained in the
prompt wins; default blue. -/
def getColorFromPrompt (prompt : String) : String :=
  (lookupColor prompt colorMap).getD "#3B82F6"

/-- Condition of the rectangle branch of `parsePrompt`. -/
def rectTrigger (lp : String) : Bool :=
  includes lp "rectangle" || includes lp "box" || includes lp "square"

/-- Condition of the circle branch of `parsePrompt` (before the emptiness
guard). -/
def circleTrigger (lp : String) : Bool :=
  includes lp "circle" || includes lp "round"

/-- Condition of the line branch of `parsePrompt` (before the emptiness
guard). -/
def lineTrigger (lp : String) : Bool :=
  includes lp "line"

/-- Condition of the text branch of `parsePrompt` (before the emptiness
guard). -/
def textTrigger (lp : String) : Bool :=
  includes lp "text" || includes lp "label" || includes lp "title"

/-- `parsePrompt` from the source: keyword matching over the lowercased
prompt, each later branch guarded by `!elements.length`, with a default
rectangle when nothing matched. -/
def parsePrompt (prompt : String) (canvasWidth canvasHeight : ℚ) :
    List CreateElementInput :=
  let lowerPrompt := toLowerStr prompt
  let centerX := canvasWidth / 2
  let centerY := canvasHeight / 2
  let elements : List CreateElementInput := []
  let elements :=
    if rectTrigger lowerPrompt then
      let isSquare := includes lowerPrompt "square"
      let dims : Dimensions := if isSquare then ⟨100, 100⟩ else ⟨150, 100⟩
      elements ++ [{ type := ElementType.rectangle
                     canvasId := ""
                     position := ⟨centerX - dims.width / 2, centerY - dims.height / 2⟩
                     dimensions := some dims
                     fill := some ⟨getColorFromPrompt lowerPrompt, 1⟩
                     stroke := some ⟨"#000000", 2, 1, StrokeCap.butt, StrokeJoin.miter⟩
                     rectangleProps :=
                       some ⟨if includes lowerPrompt "rounded" then 10 else 0⟩ }]
    else elements
  let elements :=
    if circleTrigger lowerPrompt && elements.isEmpty then
      let radius : ℚ := 50
      elements ++ [{ type := ElementType.circle
                     canvasId := ""
                     position := ⟨centerX - radius, centerY - radius⟩
                     dimensions := some ⟨radius * 2, radius * 2⟩
                     fill := some ⟨getColorFromPrompt lowerPrompt, 1⟩
                     stroke := some ⟨"#000000", 2, 1, StrokeCap.butt, StrokeJoin.miter⟩ }]
    else elements
  let elements :=
    if lineTrigger lowerPrompt && elements.isEmpty then
      let startX := centerX - 75
      let startY := centerY
      let endX := centerX + 75
      let endY := centerY
      elements ++ [{ type := ElementType.line
                     canvasId := ""
                     position := ⟨min startX endX, min startY endY⟩
                     stroke := some ⟨getColorFromPrompt lowerPrompt, 3, 1,
                                     StrokeCap.round, StrokeJoin.miter⟩
                     lineProps := some ⟨startX, startY, endX, endY⟩ }]
    else elements
  let elements :=
    if textTrigger lowerPrompt && elements.isEmpty then
      let content := (extractTextContent prompt).getD "Sample Text"
      let fontSize : ℚ :=
        if includes lowerPrompt "title" then 24
        else if includes lowerPrompt "large" then 20 else 16
      elements ++ [{ type := ElementType.text
                     canvasId := ""
                     position := ⟨centerX - 50, centerY⟩
                     dimensions := some ⟨200, fontSize * 1.5⟩
                     fill := some ⟨getColorFromPrompt lowerPrompt, 1⟩
                     textStyle := some ⟨"Arial", fontSize,
                                        if includes lowerPrompt "bold" then 700 else 400,
                                        TextAlign.left, 1.2⟩
                     textProps := some ⟨content, none⟩ }]
    else elements
  if elements.isEmpty then
    [{ type := ElementType.rectangle
       canvasId := ""
       position := ⟨centerX - 75, centerY - 50⟩
       dimensions := some ⟨150, 100⟩
       fill := some ⟨"#3B82F6", 1⟩
       stroke := some ⟨"#1E40AF", 2, 1, StrokeCap.butt, StrokeJoin.miter⟩
       rectangleProps := some ⟨0⟩ }]
  else elements

/-- `adjustElementsForContext` from the source: with nonempty context, each
draft `index` is shifted by `offset + index * 20` on both axes; otherwise the
drafts are returned unchanged.  The canvas dimensions are parameters of the
source function and are likewise unused here. -/
def adjustElementsForContext (elements : List CreateElementInput)
    (contextElements : List CanvasElement) (_canvasWidth _canvasHeight : ℚ) :
    List CreateElementInput :=
  if contextElements.length = 0 then elements
  else
    let offset : ℚ := 50
    elements.mapIdx (fun index element =>
      { element with
        position := ⟨element.position.x + offset + (index : ℚ) * 20,
                     element.position.y + offset + (index : ℚ) * 20⟩ })

/-! ## Branch-by-branch description of the interpreter's output -/

/-- The draft produced by the rectangle branch. -/
def rectDraft (lp : String) (W H : ℚ) : CreateElementInput :=
  let dims : Dimensions := if includes lp "square" then ⟨100, 100⟩ else ⟨150, 100⟩
  { type := ElementType.rectangle
    canvasId := ""
    position := ⟨W / 2 - dims.width / 2, H / 2 - dims.height / 2⟩
    dimensions := some dims
    fill := some ⟨getColorFromPrompt lp, 1⟩
    stroke := some ⟨"#000000", 2, 1, StrokeCap.butt, StrokeJoin.miter⟩
    rectangleProps := some ⟨if includes lp "rounded" then 10 else 0⟩ }

/-- The draft produced by the circle branch. -/
def circleDraft (lp : String) (W H : ℚ) : CreateElementInput :=
  { type := ElementType.circle
    canvasId := ""
    position := ⟨W / 2 - 50, H / 2 - 50⟩
    dimensions := some ⟨100, 100⟩
    fill := some ⟨getColorFromPrompt lp, 1⟩
    stroke := some ⟨"#000000", 2, 1, StrokeCap.butt, StrokeJoin.miter⟩ }

/-- The draft produced by the line branch. -/
def lineDraft (lp : String) (W H : ℚ) : CreateElementInput :=
  { type := ElementType.line
    canvasId := ""
    position := ⟨min (W / 2 - 75) (W / 2 + 75), min (H / 2) (H / 2)⟩
    stroke := some ⟨getColorFromPrompt lp, 3, 1, StrokeCap.round, StrokeJoin.miter⟩
    lineProps := some ⟨W / 2 - 75, H / 2, W / 2 + 75, H / 2⟩ }

/-- The draft produced by the text branch (`p` original-case, `lp` lowered). -/
def textDraft (p lp : String) (W H : ℚ) : CreateElementInput :=
  let fontSize : ℚ :=
    if includes lp "title" then 24 else if includes lp "large" then 20 else 16
  { type := ElementType.text
    canvasId := ""
    position := ⟨W / 2 - 50, H / 2⟩
    dimensions := some ⟨200, fontSize * 1.5⟩
    fill := some ⟨getColorFromPrompt lp, 1⟩
    textStyle := some ⟨"Arial", fontSize,
                       if includes lp "bold" then 700 else 400, TextAlign.left, 1.2⟩
    textProps := some ⟨(extractTextContent p).getD "Sample Text", none⟩ }

/-- The default rectangle produced when no keyword matched. -/
def defaultDraft (W H : ℚ) : CreateElementInput :=
  { type := ElementType.rectangle
    canvasId := ""
    position := ⟨W / 2 - 75, H / 2 - 50⟩
    dimensions := some ⟨150, 100⟩
    fill := some ⟨"#3B82F6", 1⟩
    stroke := some ⟨"#1E40AF", 2, 1, StrokeCap.butt, StrokeJoin.miter⟩
    rectangleProps := some ⟨0⟩ }

/-- `parsePrompt` unfolded branch by branch: the first trigger in priority
order `rectangle > circle > line > text > default` determines the single draft. -/
theorem parsePrompt_eval (p : String) (W H : ℚ) :
    parsePrompt p W H =
      (if rectTrigger (toLowerStr p) then [rectDraft (toLowerStr p) W H]
       else if circleTrigger (toLowerStr p) then [circleDraft (toLowerStr p) W H]
       else if lineTrigger (toLowerStr p) then [lineDraft (toLowerStr p) W H]
       else if textTrigger (toLowerStr p) then [textDraft p (toLowerStr p) W H]
       else [defaultDraft W H]) := by
  unfold parsePrompt rectDraft circleDraft lineDraft textDraft defaultDraft
  cases hr : rectTrigger (toLowerStr p) <;>
    cases hc : circleTrigger (toLowerStr p) <;>
      cases hl : lineTrigger (toLowerStr p) <;>
        cases ht : textTrigger (toLowerStr p) <;>
          simp [hr, hc, hl, ht] <;> norm_num

/-! ## Helper lemmas -/

/-- The palette scan of `getColorFromPrompt`, written out: red is checked
first, white last, default blue. -/
theorem getColorFromPrompt_eq_ifs (lp : String) :
    getColorFromPrompt lp =
      (if includes lp "red" then "#EF4444"
       else if includes lp "blue" then "#3B82F6"
       else if includes lp "green" then "#10B981"
       else if includes lp "yellow" then "#F59E0B"
       else if includes lp "purple" then "#8B5CF6"
       else if includes lp "pink" then "#EC4899"
       else if includes lp "orange" then "#F97316"
       else if includes lp "gray" then "#6B7280"
       else if includes lp "black" then "#000000"
       else if includes lp "white" then "#FFFFFF"
       else "#3B82F6") := by
  simp only [getColorFromPrompt, colorMap, lookupColor]
  by_cases h1 : includes lp "red" = true
  · simp [h1]
  simp only [Bool.not_eq_true] at h1
  by_cases h2 : includes lp "blue" = true
  · simp [h1, h2]
  simp only [Bool.not_eq_true] at h2
  by_cases h3 : includes lp "green" = true
  · simp [h1, h2, h3]
  simp only [Bool.not_eq_true] at h3
  by_cases h4 : includes lp "yellow" = true
  · simp [h1, h2, h3, h4]
  simp only [Bool.not_eq_true] at h4
  by_cases h5 : includes lp "purple" = true
  · simp [h1, h2, h3, h4, h5]
  simp only [Bool.not_eq_true] at h5
  by_cases h6 : includes lp "pink" = true
  · simp [h1, h2, h3, h4, h5, h6]
  simp only [Bool.not_eq_true] at h6
  by_cases h7 : includes lp "orange" = true
  · simp [h1, h2, h3, h4, h5, h6, h7]
  simp only [Bool.not_eq_true] at h7
  by_cases h8 : includes lp "gray" = true
  · simp [h1, h2, h3, h4, h5, h6, h7, h8]
  simp only [Bool.not_eq_true] at h8
  by_cases h9 : includes lp "black" = true
  · simp [h1, h2, h3, h4, h5, h6, h7, h8, h9]
  simp only [Bool.not_eq_true] at h9
  by_cases h10 : includes lp "white" = true
  · simp [h1, h2, h3, h4, h5, h6, h7, h8, h9, h10]
  simp only [Bool.not_eq_true] at h10
  simp [h1, h2, h3, h4, h5, h6, h7, h8, h9, h10]

/-- A color string of the form `#RRGGBB` with six hex digits. -/
def isHexDigit (c : Char) : Bool :=
  (48 ≤ c.toNat && c.toNat ≤ 57) || (65 ≤ c.toNat && c.toNat ≤ 70) ||
    (97 ≤ c.toNat && c.toNat ≤ 102)

def isHexColor (s : String) : Bool :=
  match s.data with
  | [] => false
  | c :: rest => c == '#' && rest.length == 6 && rest.all isHexDigit

theorem isHexColor_lookupColor (prompt : String) (l : List (String × String))
    (hl : ∀ entry ∈ l, isHexColor entry.2 = true) :
    isHexColor ((lookupColor prompt l).getD "#3B82F6") = true := by
  induction l with
  | nil => rfl
  | cons a rest ih =>
    simp only [lookupColor]
    split
    · simpa using hl a (by simp)
    · exact ih (fun e he => hl e (by simp [he]))

/-- Everything the palette can resolve to is a well-formed hex color. -/
theorem isHexColor_getColorFromPrompt (lp : String) :
    isHexColor (getColorFromPrompt lp) = true := by
  unfold getColorFromPrompt
  exact isHexColor_lookupColor lp colorMap (by decide)

theorem mapIdx_get? {α : Type} {β : Type} (f : ℕ → α → β) (l : List α) (i : ℕ) :
    (List.mapIdx f l).get? i = (l.get? i).map (f i) := by
  have hlen : (List.mapIdx f l).length = l.length := List.length_mapIdx
  by_cases h : i < l.length
  · rw [List.get?_eq_get h, List.get?_eq_get (show i < (List.mapIdx f l).length by omega),
      List.get_mapIdx l f i h]
    rfl
  · rw [List.get?_eq_none.mpr (by omega), List.get?_eq_none.mpr (by omega)]
    rfl

/-! ## Claim theorems -/

/-- C1: the interpreter applies the type-detection rules in the fixed
priority order rectangle/box/square > circle/round > line > text/label/title
> default, stopping at the first match, producing exactly one draft; in
particular a prompt containing both a rectangle keyword and "text" yields one
rectangle draft and no text draft. -/
theorem C1_type_priority (p : String) (W H : ℚ) :
    ∃ e, parsePrompt p W H = [e] ∧
      (rectTrigger (toLowerStr p) = true → e.type = ElementType.rectangle) ∧
      (rectTrigger (toLowerStr p) = false → circleTrigger (toLowerStr p) = true →
        e.type = ElementType.circle) ∧
      (rectTrigger (toLowerStr p) = false → circleTrigger (toLowerStr p) = false →
        lineTrigger (toLowerStr p) = true → e.type = ElementType.line) ∧
      (rectTrigger (toLowerStr p) = false → circleTrigger (toLowerStr p) = false →
        lineTrigger (toLowerStr p) = false → textTrigger (toLowerStr p) = true →
        e.type = ElementType.text) ∧
      (rectTrigger (toLowerStr p) = false → circleTrigger (toLowerStr p) = false →
        lineTrigger (toLowerStr p) = false → textTrigger (toLowerStr p) = false →
        e.type = ElementType.rectangle) ∧
      (rectTrigger (toLowerStr p) = true → includes (toLowerStr p) "text" = true →
        e.type = ElementType.rectangle ∧ e.type ≠ ElementType.text) := by
  rw [parsePrompt_eval]
  cases hr : rectTrigger (toLowerStr p) <;>
    cases hc : circleTrigger (toLowerStr p) <;>
      cases hl : lineTrigger (toLowerStr p) <;>
        cases ht : textTrigger (toLowerStr p) <;>
          simp [hr, hc, hl, ht, rectDraft, circleDraft, lineDraft, textDraft, defaultDraft]

/-- C1 witness: a prompt with both "rectangle" and "text" yields one
rectangle draft. -/
theorem C1_witness :
    (parsePrompt "a rectangle with text" 300 200).map (fun e => e.type) =
      [ElementType.rectangle] := by
  obtain ⟨e, he, h1, -, -, -, -, -⟩ := C1_type_priority "a rectangle with text" 300 200
  rw [he]
  simp [h1 (by decide)]

/-- C2 (amended): geometry per matched type — the rectangle sits at
`(W/2 − width/2, H/2 − height/2)`, the circle of size 100×100 at
`(W/2 − 50, H/2 − 50)`, the line runs from `(W/2 − 75, H/2)` to
`(W/2 + 75, H/2)` with position the component-wise minimum of its endpoints,
and the text box has its top-left corner at `(W/2 − 50, H/2)` (offset from,
not centered on, the midpoint); the red-circle example returns one circle of
size 100×100 at `(910, 490)` with fill `#EF4444`. -/
theorem C2_centered_geometry (p : String) (W H : ℚ) (hW : 0 < W) (hH : 0 < H)
    (e : CreateElementInput) (he : e ∈ parsePrompt p W H) :
    ((e.type = ElementType.rectangle → ∃ d, e.dimensions = some d ∧
        e.position = ⟨W / 2 - d.width / 2, H / 2 - d.height / 2⟩) ∧
     (e.type = ElementType.circle → e.dimensions = some ⟨100, 100⟩ ∧
        e.position = ⟨W / 2 - 50, H / 2 - 50⟩) ∧
     (e.type = ElementType.line →
        e.lineProps = some ⟨W / 2 - 75, H / 2, W / 2 + 75, H / 2⟩ ∧
        e.position = ⟨W / 2 - 75, H / 2⟩) ∧
     (e.type = ElementType.text → e.position = ⟨W / 2 - 50, H / 2⟩)) ∧
    parsePrompt "Add a red circle" 1920 1080 =
      [{ type := ElementType.circle, canvasId := "", position := ⟨910, 490⟩,
         dimensions := some ⟨100, 100⟩, fill := some ⟨"#EF4444", 1⟩,
         stroke := some ⟨"#000000", 2, 1, StrokeCap.butt, StrokeJoin.miter⟩ }] := by
  constructor
  · rw [parsePrompt_eval] at he
    have hmin : min (W / 2 - 75) (W / 2 + 75) = W / 2 - 75 :=
      min_eq_left (by linarith)
    split at he
    · simp only [List.mem_singleton] at he; subst he
      refine ⟨fun _ => ⟨_, rfl, rfl⟩, fun htype => ?_, fun htype => ?_, fun htype => ?_⟩ <;>
        simp [rectDraft] at htype
    · split at he
      · simp only [List.mem_singleton] at he; subst he
        refine ⟨fun htype => ?_, fun _ => ⟨rfl, rfl⟩, fun htype => ?_, fun htype => ?_⟩ <;>
          simp [circleDraft] at htype
      · split at he
        · simp only [List.mem_singleton] at he; subst he
          refine ⟨fun htype => ?_, fun htype => ?_, fun _ => ⟨rfl, ?_⟩, fun htype => ?_⟩
          · simp [lineDraft] at htype
          · simp [lineDraft] at htype
          · simp [lineDraft, hmin, min_self]
          · simp [lineDraft] at htype
        · split at he
          · simp only [List.mem_singleton] at he; subst he
            refine ⟨fun htype => ?_, fun htype => ?_, fun htype => ?_, fun _ => rfl⟩ <;>
              simp [textDraft] at htype
          · simp only [List.mem_singleton] at he; subst he
            refine ⟨fun _ => ⟨⟨150, 100⟩, rfl, ?_⟩, fun htype => ?_, fun htype => ?_,
              fun htype => ?_⟩
            · simp only [defaultDraft, Pos.mk.injEq]
              norm_num
            · simp [defaultDraft] at htype
            · simp [defaultDraft] at htype
            · simp [defaultDraft] at htype
  · rw [parsePrompt_eval]
    norm_num [circleDraft,
      (by decide : rectTrigger (toLowerStr "Add a red circle") = false),
      (by decide : circleTrigger (toLowerStr "Add a red circle") = true),
      (by decide : getColorFromPrompt (toLowerStr "Add a red circle") = "#EF4444")]

/-- C2 counterexample: for the prompt "text" on a 1920×1080 canvas the text
draft sits at `(910, 540)` with box 200×24, whose top-left corner is not the
centered position `(W/2 − width/2, H/2 − height/2) = (860, 528)`. -/
theorem C2_text_not_centered :
    (parsePrompt "text" 1920 1080).map (fun e => (e.type, e.position, e.dimensions)) =
      [(ElementType.text, ⟨910, 540⟩, some ⟨200, 24⟩)] ∧
    ¬((910 : ℚ) = 1920 / 2 - 200 / 2) := by
  constructor
  · rw [parsePrompt_eval]
    norm_num [textDraft, (by decide : rectTrigger (toLowerStr "text") = false),
      (by decide : circleTrigger (toLowerStr "text") = false),
      (by decide : lineTrigger (toLowerStr "text") = false),
      (by decide : textTrigger (toLowerStr "text") = true),
      (by decide : includes (toLowerStr "text") "title" = false),
      (by decide : includes (toLowerStr "text") "large" = false)]
  · norm_num

/-- C2 witness: the amended theorem applied to the red-circle example. -/
theorem C2_witness :
    (circleDraft (toLowerStr "Add a red circle") 1920 1080).dimensions = some ⟨100, 100⟩ ∧
    (circleDraft (toLowerStr "Add a red circle") 1920 1080).position =
      ⟨1920 / 2 - 50, 1080 / 2 - 50⟩ := by
  have he : circleDraft (toLowerStr "Add a red circle") 1920 1080 ∈
      parsePrompt "Add a red circle" 1920 1080 := by
    rw [parsePrompt_eval]
    simp [(by decide : rectTrigger (toLowerStr "Add a red circle") = false),
      (by decide : circleTrigger (toLowerStr "Add a red circle") = true)]
  exact ((C2_centered_geometry "Add a red circle" 1920 1080 (by norm_num) (by norm_num)
    _ he).1).2.1 (by simp [circleDraft])

/-- C3 (amended): for every prompt that triggers one of the keyword rules,
the element's resolved color — fill for rectangle/circle/text, stroke for
line — is the fixed hex of the first palette name contained in the lowered
prompt (red first, white last), defaulting to `#3B82F6`. -/
theorem C3_palette_order (p : String) (W H : ℚ)
    (htrig : (rectTrigger (toLowerStr p) || circleTrigger (toLowerStr p) ||
              lineTrigger (toLowerStr p) || textTrigger (toLowerStr p)) = true) :
    (parsePrompt p W H).map
        (fun e => if e.type = ElementType.line then e.stroke.map (fun s => s.color)
                  else e.fill.map (fun f => f.color)) =
      [some (if includes (toLowerStr p) "red" then "#EF4444"
             else if includes (toLowerStr p) "blue" then "#3B82F6"
             else if includes (toLowerStr p) "green" then "#10B981"
             else if includes (toLowerStr p) "yellow" then "#F59E0B"
             else if includes (toLowerStr p) "purple" then "#8B5CF6"
             else if includes (toLowerStr p) "pink" then "#EC4899"
             else if includes (toLowerStr p) "orange" then "#F97316"
             else if includes (toLowerStr p) "gray" then "#6B7280"
             else if includes (toLowerStr p) "black" then "#000000"
             else if includes (toLowerStr p) "white" then "#FFFFFF"
             else "#3B82F6")] := by
  rw [parsePrompt_eval, ← getColorFromPrompt_eq_ifs]
  cases hr : rectTrigger (toLowerStr p) <;>
    cases hc : circleTrigger (toLowerStr p) <;>
      cases hl : lineTrigger (toLowerStr p) <;>
        cases ht : textTrigger (toLowerStr p) <;>
          simp_all [rectDraft, circleDraft, lineDraft, textDraft]

/-- C3 counterexample: the prompt "red" contains a palette color name but no
type keyword, so it falls to the default rectangle whose fill is the
hard-coded `#3B82F6`, not red's `#EF4444`. -/
theorem C3_default_ignores_palette :
    includes (toLowerStr "red") "red" = true ∧
    (parsePrompt "red" 1920 1080).map (fun e => e.fill.map (fun f => f.color)) =
      [some "#3B82F6"] ∧
    ("#3B82F6" : String) ≠ "#EF4444" := by
  refine ⟨by decide, ?_, by decide⟩
  rw [parsePrompt_eval]
  simp [defaultDraft, (by decide : rectTrigger (toLowerStr "red") = false),
    (by decide : circleTrigger (toLowerStr "red") = false),
    (by decide : lineTrigger (toLowerStr "red") = false),
    (by decide : textTrigger (toLowerStr "red") = false)]

/-- C3 witness: "red line" resolves to a line whose stroke color is red's
hex. -/
theorem C3_witness :
    (parsePrompt "red line" 100 100).map
        (fun e => if e.type = ElementType.line then e.stroke.map (fun s => s.color)
                  else e.fill.map (fun f => f.color)) = [some "#EF4444"] := by
  rw [C3_palette_order "red line" 100 100 (by decide)]
  decide

/-- C4: the interpreter is total — every prompt yields exactly one draft —
and a prompt with none of the nine type keywords yields exactly the default
rectangle: position `(W/2 − 75, H/2 − 50)`, size 150×100, fill `#3B82F6`,
borderRadius 0, stroke `#1E40AF` of width 2. -/
theorem C4_total_default (p : String) (W H : ℚ) (hW : 0 < W) (hH : 0 < H) :
    (parsePrompt p W H).length = 1 ∧
    ((includes (toLowerStr p) "rectangle" = false ∧ includes (toLowerStr p) "box" = false ∧
      includes (toLowerStr p) "square" = false ∧ includes (toLowerStr p) "circle" = false ∧
      includes (toLowerStr p) "round" = false ∧ includes (toLowerStr p) "line" = false ∧
      includes (toLowerStr p) "text" = false ∧ includes (toLowerStr p) "label" = false ∧
      includes (toLowerStr p) "title" = false) →
      parsePrompt p W H =
        [{ type := ElementType.rectangle, canvasId := "",
           position := ⟨W / 2 - 75, H / 2 - 50⟩, dimensions := some ⟨150, 100⟩,
           fill := some ⟨"#3B82F6", 1⟩,
           stroke := some ⟨"#1E40AF", 2, 1, StrokeCap.butt, StrokeJoin.miter⟩,
           rectangleProps := some ⟨0⟩ }]) := by
  constructor
  · rw [parsePrompt_eval]
    split
    · rfl
    · split
      · rfl
      · split
        · rfl
        · split <;> rfl
  · rintro ⟨h1, h2, h3, h4, h5, h6, h7, h8, h9⟩
    have hr : rectTrigger (toLowerStr p) = false := by simp [rectTrigger, h1, h2, h3]
    have hc : circleTrigger (toLowerStr p) = false := by simp [circleTrigger, h4, h5]
    have hl : lineTrigger (toLowerStr p) = false := by simp [lineTrigger, h6]
    have ht : textTrigger (toLowerStr p) = false := by simp [textTrigger, h7, h8, h9]
    rw [parsePrompt_eval]
    simp [hr, hc, hl, ht, defaultDraft]

/-- C4 witness: the unrecognized prompt "xyz abc random" produces the default
rectangle. -/
theorem C4_witness :
    (parsePrompt "xyz abc random" 1920 1080).length = 1 ∧
    parsePrompt "xyz abc random" 1920 1080 =
      [{ type := ElementType.rectangle, canvasId := "",
         position := ⟨1920 / 2 - 75, 1080 / 2 - 50⟩, dimensions := some ⟨150, 100⟩,
         fill := some ⟨"#3B82F6", 1⟩,
         stroke := some ⟨"#1E40AF", 2, 1, StrokeCap.butt, StrokeJoin.miter⟩,
         rectangleProps := some ⟨0⟩ }] :=
  ⟨(C4_total_default "xyz abc random" 1920 1080 (by norm_num) (by norm_num)).1,
   (C4_total_default "xyz abc random" 1920 1080 (by norm_num) (by norm_num)).2
     ⟨by decide, by decide, by decide, by decide, by decide, by decide, by decide,
      by decide, by decide⟩⟩

/-- C5: a prompt triggering the text rule yields one text draft with content
the first quoted substring of the original-case prompt (else "Sample Text"),
fontSize 24/20/16 by "title"/"large"/neither, fontWeight 700 iff "bold", box
200×(fontSize×1.5), textAlign left, lineHeight 1.2; the "Hello World" example
gives content "Hello World", fontSize 16, fontWeight 400. -/
theorem C5_text_rule (p : String) (W H : ℚ)
    (hr : rectTrigger (toLowerStr p) = false)
    (hc : circleTrigger (toLowerStr p) = false)
    (hl : lineTrigger (toLowerStr p) = false)
    (ht : textTrigger (toLowerStr p) = true) :
    parsePrompt p W H =
      [{ type := ElementType.text, canvasId := "",
         position := ⟨W / 2 - 50, H / 2⟩,
         dimensions := some ⟨200,
           (if includes (toLowerStr p) "title" then (24 : ℚ)
            else if includes (toLowerStr p) "large" then 20 else 16) * 1.5⟩,
         fill := some ⟨getColorFromPrompt (toLowerStr p), 1⟩,
         textStyle := some ⟨"Arial",
           (if includes (toLowerStr p) "title" then (24 : ℚ)
            else if includes (toLowerStr p) "large" then 20 else 16),
           (if includes (toLowerStr p) "bold" then (700 : ℤ) else 400),
           TextAlign.left, 1.2⟩,
         textProps := some ⟨(extractTextContent p).getD "Sample Text", none⟩ }] ∧
    (parsePrompt "Add text that says \"Hello World\"" W H).map
        (fun e => (e.textProps.map (fun t => t.content),
                   e.textStyle.map (fun t => (t.fontSize, t.fontWeight)))) =
      [(some "Hello World", some ((16 : ℚ), (400 : ℤ)))] := by
  constructor
  · rw [parsePrompt_eval]
    simp [hr, hc, hl, ht, textDraft]
  · rw [parsePrompt_eval]
    simp [textDraft,
      (by decide : rectTrigger (toLowerStr "Add text that says \"Hello World\"") = false),
      (by decide : circleTrigger (toLowerStr "Add text that says \"Hello World\"") = false),
      (by decide : lineTrigger (toLowerStr "Add text that says \"Hello World\"") = false),
      (by decide : textTrigger (toLowerStr "Add text that says \"Hello World\"") = true),
      (by decide : includes (toLowerStr "Add text that says \"Hello World\"") "title" = false),
      (by decide : includes (toLowerStr "Add text that says \"Hello World\"") "large" = false),
      (by decide : includes (toLowerStr "Add text that says \"Hello World\"") "bold" = false),
      (by decide :
        extractTextContent "Add text that says \"Hello World\"" = some "Hello World")]

/-- C5 witness: the text rule applied to the "Hello World" example. -/
theorem C5_witness :
    (parsePrompt "Add text that says \"Hello World\"" 800 600).map
        (fun e => (e.textProps.map (fun t => t.content),
                   e.textStyle.map (fun t => (t.fontSize, t.fontWeight)))) =
      [(some "Hello World", some ((16 : ℚ), (400 : ℤ)))] :=
  (C5_text_rule "Add text that says \"Hello World\"" 800 600
    (by decide) (by decide) (by decide) (by decide)).2

/-- C6: with nonempty context the draft at index `i` is shifted by exactly
`(50 + 20·i, 50 + 20·i)`, independent of the context elements' coordinates
and of the canvas dimensions; with empty context the drafts are returned
unmodified. -/
theorem C6_context_offset (elements : List CreateElementInput)
    (ctx ctx' : List CanvasElement) (W H Wa Ha : ℚ) :
    (ctx = [] → adjustElementsForContext elements ctx W H = elements) ∧
    (ctx ≠ [] →
      (adjustElementsForContext elements ctx W H).length = elements.length ∧
      ∀ i : ℕ, (adjustElementsForContext elements ctx W H).get? i =
        (elements.get? i).map (fun e =>
          { e with position := ⟨e.position.x + 50 + (i : ℚ) * 20,
                                e.position.y + 50 + (i : ℚ) * 20⟩ })) ∧
    (ctx ≠ [] → ctx' ≠ [] →
      adjustElementsForContext elements ctx W H =
        adjustElementsForContext elements ctx' Wa Ha) := by
  refine ⟨fun hctx => ?_, fun hctx => ⟨?_, fun i => ?_⟩, fun hctx hctx' => ?_⟩
  · subst hctx; rfl
  · unfold adjustElementsForContext
    rw [if_neg (by simpa using hctx)]
    exact List.length_mapIdx
  · unfold adjustElementsForContext
    rw [if_neg (by simpa using hctx)]
    rw [mapIdx_get?]
  · unfold adjustElementsForContext
    rw [if_neg (by simpa using hctx), if_neg (by simpa using hctx')]

/-- C6 witness: one context element (its own coordinates irrelevant) shifts
the single default draft by exactly `(50, 50)`. -/
theorem C6_witness :
    (adjustElementsForContext [defaultDraft 640 480]
        [⟨"ctx1", ElementType.rectangle, "c1", ⟨12345, -777⟩, none, 0, true, false,
          none, none, none, none, none, none, 0, 0⟩] 640 480).get? 0 =
      some { defaultDraft 640 480 with position := ⟨295, 240⟩ } := by
  have h := (C6_context_offset [defaultDraft 640 480]
    [⟨"ctx1", ElementType.rectangle, "c1", ⟨12345, -777⟩, none, 0, true, false,
      none, none, none, none, none, none, 0, 0⟩]
    [] 640 480 0 0).2.1 (by simp)
  rw [h.2 0]
  simp only [List.get?, Option.map_some]
  norm_num [defaultDraft, Pos.mk.injEq]

/-- C7: every produced draft satisfies the data-model invariant — a line
draft has no Size, a non-line draft with a fill has a Size, and every fill or
stroke color matches the `#RRGGBB` pattern. -/
theorem C7_draft_invariants (p : String) (W H : ℚ) (hW : 0 < W) (hH : 0 < H)
    (e : CreateElementInput) (he : e ∈ parsePrompt p W H) :
    (e.type = ElementType.line → e.dimensions = none) ∧
    (e.type ≠ ElementType.line → e.fill.isSome = true → e.dimensions.isSome = true) ∧
    (∀ f, e.fill = some f → isHexColor f.color = true) ∧
    (∀ s, e.stroke = some s → isHexColor s.color = true) := by
  rw [parsePrompt_eval] at he
  split at he
  · simp only [List.mem_singleton] at he; subst he
    refine ⟨fun htype => ?_, fun _ _ => rfl, fun f hf => ?_, fun s hs => ?_⟩
    · simp [rectDraft] at htype
    · simp only [rectDraft, Option.some.injEq] at hf
      rw [← hf]
      exact isHexColor_getColorFromPrompt _
    · simp only [rectDraft, Option.some.injEq] at hs
      rw [← hs]
      decide
  · split at he
    · simp only [List.mem_singleton] at he; subst he
      refine ⟨fun htype => ?_, fun _ _ => rfl, fun f hf => ?_, fun s hs => ?_⟩
      · simp [circleDraft] at htype
      · simp only [circleDraft, Option.some.injEq] at hf
        rw [← hf]
        exact isHexColor_getColorFromPrompt _
      · simp only [circleDraft, Option.some.injEq] at hs
        rw [← hs]
        decide
    · split at he
      · simp only [List.mem_singleton] at he; subst he
        refine ⟨fun _ => rfl, fun htype _ => absurd rfl htype, fun f hf => ?_,
          fun s hs => ?_⟩
        · simp [lineDraft] at hf
        · simp only [lineDraft, Option.some.injEq] at hs
          rw [← hs]
          exact isHexColor_getColorFromPrompt _
      · split at he
        · simp only [List.mem_singleton] at he; subst he
          refine ⟨fun htype => ?_, fun _ _ => rfl, fun f hf => ?_, fun s hs => ?_⟩
          · simp [textDraft] at htype
          · simp only [textDraft, Option.some.injEq] at hf
            rw [← hf]
            exact isHexColor_getColorFromPrompt _
          · simp [textDraft] at hs
        · simp only [List.mem_singleton] at he; subst he
          refine ⟨fun htype => ?_, fun _ _ => rfl, fun f hf => ?_, fun s hs => ?_⟩
          · simp [defaultDraft] at htype
          · simp only [defaultDraft, Option.some.injEq] at hf
            rw [← hf]
            decide
          · simp only [defaultDraft, Option.some.injEq] at hs
            rw [← hs]
            decide

/-- C7 witness: the invariant applied to the line draft of the prompt
"line". -/
theorem C7_witness : (lineDraft (toLowerStr "line") 640 480).dimensions = none := by
  have he : lineDraft (toLowerStr "line") 640 480 ∈ parsePrompt "line" 640 480 := by
    rw [parsePrompt_eval]
    simp [(by decide : rectTrigger (toLowerStr "line") = false),
      (by decide : circleTrigger (toLowerStr "line") = false),
      (by decide : lineTrigger (toLowerStr "line") = true)]
  exact (C7_draft_invariants "line" 640 480 (by norm_num) (by norm_num) _ he).1
    (by simp [lineDraft])

/-- C9: each draft carries exactly the style and shape-specific fields of its
type — line: stroke only, lineProps only; text: fill and textStyle, textProps
only; rectangle/circle: fill and stroke, rectangleProps only on rectangle —
and a keyword-matched rectangle or circle always has the fixed black stroke
of width 2. -/
theorem C9_field_profile (p : String) (W H : ℚ) (e : CreateElementInput)
    (he : e ∈ parsePrompt p W H) :
    (e.type = ElementType.line →
      e.stroke.isSome = true ∧ e.fill = none ∧ e.textStyle = none ∧
      e.lineProps.isSome = true ∧ e.rectangleProps = none ∧ e.textProps = none) ∧
    (e.type = ElementType.text →
      e.fill.isSome = true ∧ e.textStyle.isSome = true ∧ e.stroke = none ∧
      e.textProps.isSome = true ∧ e.rectangleProps = none ∧ e.lineProps = none) ∧
    (e.type = ElementType.rectangle →
      e.fill.isSome = true ∧ e.stroke.isSome = true ∧ e.rectangleProps.isSome = true ∧
      e.textStyle = none ∧ e.lineProps = none ∧ e.textProps = none) ∧
    (e.type = ElementType.circle →
      e.fill.isSome = true ∧ e.stroke.isSome = true ∧ e.rectangleProps = none ∧
      e.textStyle = none ∧ e.lineProps = none ∧ e.textProps = none) ∧
    (rectTrigger (toLowerStr p) = true →
      e.stroke = some ⟨"#000000", 2, 1, StrokeCap.butt, StrokeJoin.miter⟩) ∧
    (rectTrigger (toLowerStr p) = false → circleTrigger (toLowerStr p) = true →
      e.stroke = some ⟨"#000000", 2, 1, StrokeCap.butt, StrokeJoin.miter⟩) := by
  rw [parsePrompt_eval] at he
  cases hr : rectTrigger (toLowerStr p) <;>
    cases hc : circleTrigger (toLowerStr p) <;>
      cases hl : lineTrigger (toLowerStr p) <;>
        cases ht : textTrigger (toLowerStr p) <;>
          simp only [hr, hc, hl, ht, Bool.false_eq_true, if_true, if_false,
            List.mem_singleton] at he <;>
        subst he <;>
        simp [rectDraft, circleDraft, lineDraft, textDraft, defaultDraft]

/-- C9 witness: the keyword-matched circle of "Add a red circle" has the
fixed black stroke. -/
theorem C9_witness :
    (circleDraft (toLowerStr "Add a red circle") 1920 1080).stroke =
      some ⟨"#000000", 2, 1, StrokeCap.butt, StrokeJoin.miter⟩ := by
  have he : circleDraft (toLowerStr "Add a red circle") 1920 1080 ∈
      parsePrompt "Add a red circle" 1920 1080 := by
    rw [parsePrompt_eval]
    simp [(by decide : rectTrigger (toLowerStr "Add a red circle") = false),
      (by decide : circleTrigger (toLowerStr "Add a red circle") = true)]
  exact (C9_field_profile "Add a red circle" 1920 1080 _ he).2.2.2.2.2
    (by decide) (by decide)

/-- C10: positions are never clamped to the canvas — a rectangle prompt on a
100-wide canvas yields a negative x; the context adjustment ignores its
canvas-dimension arguments entirely; and with nonempty context the shifted
square draft on a 100×100 canvas extends past the right edge. -/
theorem C10_no_clamping :
    ((parsePrompt "rectangle" 100 100).map (fun e => e.position) = [⟨-25, 0⟩] ∧
      (-25 : ℚ) < 0) ∧
    (∀ (elements : List CreateElementInput) (ctx : List CanvasElement) (W H Wa Ha : ℚ),
      adjustElementsForContext elements ctx W H =
        adjustElementsForContext elements ctx Wa Ha) ∧
    (∃ e, e ∈ adjustElementsForContext (parsePrompt "square" 100 100)
        [⟨"ctx1", ElementType.rectangle, "c1", ⟨0, 0⟩, none, 0, true, false,
          none, none, none, none, none, none, 0, 0⟩] 100 100 ∧
      ∃ d, e.dimensions = some d ∧ (100 : ℚ) < e.position.x + d.width) := by
  refine ⟨⟨?_, by norm_num⟩, fun elements ctx W H Wa Ha => rfl, ?_⟩
  · rw [parsePrompt_eval]
    norm_num [rectDraft, Pos.mk.injEq,
      (by decide : rectTrigger (toLowerStr "rectangle") = true),
      (by decide : includes (toLowerStr "rectangle") "square" = false)]
  · have hsq : parsePrompt "square" 100 100 =
        [rectDraft (toLowerStr "square") 100 100] := by
      rw [parsePrompt_eval]
      simp [(by decide : rectTrigger (toLowerStr "square") = true)]
    rw [hsq]
    have h0 : (adjustElementsForContext [rectDraft (toLowerStr "square") 100 100]
        [⟨"ctx1", ElementType.rectangle, "c1", ⟨0, 0⟩, none, 0, true, false,
          none, none, none, none, none, none, 0, 0⟩] 100 100).get? 0 =
        some { rectDraft (toLowerStr "square") 100 100 with position := ⟨50, 50⟩ } := by
      unfold adjustElementsForContext
      rw [if_neg (by simp), mapIdx_get?]
      simp only [List.get?, Option.map_some]
      norm_num [rectDraft, Pos.mk.injEq,
        (by decide : includes (toLowerStr "square") "square" = true)]
    refine ⟨_, List.get?_mem h0, ⟨100, 100⟩, ?_, by norm_num⟩
    simp [rectDraft, (by decide : includes (toLowerStr "square") "square" = true)]

/-! ## The surrounding request handler, with its storage as explicit state -/

/-- A stored canvas row, reduced to the fields the handler reads (the
decimal-string storage of width/height is modelled as exact rationals). -/
structure CanvasRow where
  id : String
  width : ℚ
  height : ℚ
deriving DecidableEq

/-- The database state seen by the handler. -/
structure DB where
  canvases : List CanvasRow
  elements : List CanvasElement
deriving DecidableEq

/-- `AIGenerateRequest` from the schema. -/
structure AIGenerateRequest where
  canvasId : String
  prompt : String
  contextElementIds : Option (List String) := none
deriving DecidableEq

/-- The insert performed for each adjusted draft: assign the fresh id, the
owning canvas, defaults for the unset flags, and timestamps. -/
def draftToRow (canvasId elementId : String) (now : ℤ) (e : CreateElementInput) :
    CanvasElement :=
  { id := elementId, type := e.type, canvasId := canvasId,
    position := e.position, dimensions := e.dimensions,
    zIndex := e.zIndex.getD 0, visible := e.visible.getD true,
    locked := e.locked.getD false, fill := e.fill, stroke := e.stroke,
    textStyle := e.textStyle, rectangleProps := e.rectangleProps,
    lineProps := e.lineProps, textProps := e.textProps,
    createdAt := now, updatedAt := now }

/-- Context resolution of the handler: when `contextElementIds` is present
and nonempty, select the stored elements of the canvas whose ids appear in
the list — an id matching no stored element of the canvas is silently
dropped by the filter. -/
def contextOf (db : DB) (cid : String) (ctxIds : Option (List String)) :
    List CanvasElement :=
  match ctxIds with
  | some ids =>
    if 0 < ids.length then
      (db.elements.filter (fun el => el.canvasId == cid)).filter
        (fun el => ids.contains el.id)
    else []
  | none => []

/-- `aiGenerateElements` from the source: resolve the canvas (error if
absent), parse the prompt, resolve context elements, adjust positions, and
persist each draft with a fresh id. -/
def aiGenerateElements (db : DB) (freshIds : ℕ → String) (now : ℤ)
    (input : AIGenerateRequest) : Except String (List CanvasElement × DB) :=
  match db.canvases.find? (fun c => c.id == input.canvasId) with
  | none => Except.error ("Canvas with ID " ++ input.canvasId ++ " not found")
  | some canvasData =>
    let canvasWidth := canvasData.width
    let canvasHeight := canvasData.height
    let elementsToCreate := parsePrompt input.prompt canvasWidth canvasHeight
    let contextElements := contextOf db input.canvasId input.contextElementIds
    let adjustedElements :=
      adjustElementsForContext elementsToCreate contextElements canvasWidth canvasHeight
    let createdElements :=
      adjustedElements.mapIdx (fun i e => draftToRow input.canvasId (freshIds i) now e)
    Except.ok (createdElements, { db with elements := db.elements ++ createdElements })

theorem filter_contains_cons_of_fresh (els : List CanvasElement)
    (cid badId : String) (ids : List String)
    (hbad : ∀ el ∈ els, el.canvasId = cid → el.id ≠ badId) :
    (els.filter (fun el => el.canvasId == cid)).filter
        (fun el => (badId :: ids).contains el.id) =
      (els.filter (fun el => el.canvasId == cid)).filter
        (fun el => ids.contains el.id) := by
  apply List.filter_congr
  intro el hel
  have h1 : el.canvasId = cid := by simpa using (List.mem_filter.mp hel).2
  have h3 : el.id ≠ badId := hbad el (List.mem_filter.mp hel).1 h1
  simp [List.contains_cons, h3]

/-- C8: the handler fails with the descriptive "not found" error exactly when
the canvas id resolves to no stored canvas (creating nothing), succeeds
whenever the canvas exists, and silently drops context ids that resolve to no
stored element of the canvas. -/
theorem C8_canvas_lookup (db : DB) (freshIds : ℕ → String) (now : ℤ)
    (input : AIGenerateRequest) :
    (db.canvases.find? (fun c => c.id == input.canvasId) = none →
      aiGenerateElements db freshIds now input =
        Except.error ("Canvas with ID " ++ input.canvasId ++ " not found")) ∧
    ((db.canvases.find? (fun c => c.id == input.canvasId)).isSome = true →
      ∃ out, aiGenerateElements db freshIds now input = Except.ok out) ∧
    (∀ (badId : String) (ids : List String),
      (∀ el ∈ db.elements, el.canvasId = input.canvasId → el.id ≠ badId) →
      input.contextElementIds = some ids →
      aiGenerateElements db freshIds now
          { input with contextElementIds := some (badId :: ids) } =
        aiGenerateElements db freshIds now input) := by
  refine ⟨fun hnone => ?_, fun hsome => ?_, fun badId ids hbad hids => ?_⟩
  · unfold aiGenerateElements
    rw [hnone]
  · obtain ⟨c, hc⟩ := Option.isSome_iff_exists.mp hsome
    unfold aiGenerateElements
    rw [hc]
    exact ⟨_, rfl⟩
  · have hctx : contextOf db input.canvasId (some (badId :: ids)) =
        contextOf db input.canvasId input.contextElementIds := by
      rw [hids]
      simp only [contextOf]
      rw [filter_contains_cons_of_fresh db.elements input.canvasId badId ids hbad]
      cases ids with
      | nil => simp
      | cons a as => simp
    unfold aiGenerateElements
    rw [show ({ input with contextElementIds := some (badId :: ids)} :
      AIGenerateRequest).canvasId = input.canvasId from rfl]
    rw [show ({ input with contextElementIds := some (badId :: ids)} :
      AIGenerateRequest).contextElementIds = some (badId :: ids) from rfl]
    rw [show ({ input with contextElementIds := some (badId :: ids)} :
      AIGenerateRequest).prompt = input.prompt from rfl]
    rw [hctx]

/-- C8 witness: the handler on an empty store fails with the "not found"
error. -/
theorem C8_witness :
    aiGenerateElements ⟨[], []⟩ (fun _ => "id0") 0 ⟨"c1", "hello", none⟩ =
      Except.error "Canvas with ID c1 not found" := by
  have h := (C8_canvas_lookup ⟨[], []⟩ (fun _ => "id0") 0 ⟨"c1", "hello", none⟩).1 rfl
  rw [h]
  rfl
